import Mathlib

/-!
Shallow embedding of `GPy/likelihoods/bernoulli.py` (the `Bernoulli`
likelihood class) and verification of the specification's claims about it.

Modelling conventions:
* numpy arrays are `NDArray`: a shape (list of dimension sizes) plus the
  flattened data as a list of exact reals; numpy's float arithmetic is
  modelled over `ℝ`.
* Python exceptions are an explicit `PyError` inductive; fallible methods
  return `Except PyError α`.
* the link function held by the likelihood is a closed variant tag
  (`Probit`, `Heaviside`, `Other`), mirroring the `isinstance` dispatch of
  the source; `Other` stands for every link class that is neither
  `link_functions.Probit` nor `link_functions.Heaviside`.
* numpy's process-wide floating-point error-reporting state (`np.seterr`)
  is an explicit `ErrState` threaded through the methods that mutate it.
-/

open Real MeasureTheory Set

namespace GPyBernoulli

/-- The link-function variant held by the likelihood, as dispatched on by
`isinstance(self.gp_link, link_functions.Probit)` /
`isinstance(self.gp_link, link_functions.Heaviside)` in the source.
`Other` stands for any other link class. -/
inductive Link
  | Probit
  | Heaviside
  | Other
  deriving DecidableEq

/-- Python exceptions raised by the module's code paths. -/
inductive PyError
  /-- `ValueError("bad value for Bernouilli observation (0, 1)")` from
  `moments_match_ep`. -/
  | valueErrorBadObservation
  /-- `ValueError("Exact moment matching not available for link ...")` from
  `moments_match_ep`, carrying the offending link variant. -/
  | valueErrorNoMomentMatch (l : Link)
  /-- Failure of a Python `assert` statement (class `AssertionError`). -/
  | assertionError
  /-- `NameError`: the name `stats` is not bound in the module's globals
  (the module never imports `scipy.stats`). -/
  | nameErrorStats
  /-- `raise NotImplementedError` in `predictive_mean`. -/
  | notImplementedError
  /-- numpy `FloatingPointError` raised when an error category is set to
  raise and a matching floating-point condition occurs. -/
  | floatingPointError
  deriving DecidableEq

/-- Whether a `PyError` belongs to Python's `ValueError` class. -/
def PyError.isValueErrorClass : PyError → Bool
  | PyError.valueErrorBadObservation => true
  | PyError.valueErrorNoMomentMatch _ => true
  | _ => false

/-- A numpy array: its shape and its flattened contents (exact reals). -/
structure NDArray where
  shape : List Nat
  data : List ℝ

/-- One numpy error-reporting category setting (`np.seterr` value). -/
inductive ErrMode
  | ignore
  | warn
  | raise
  deriving DecidableEq

/-- The numpy error-reporting state relevant to this module: the `divide`
and `invalid` categories. -/
structure ErrState where
  divide : ErrMode
  invalid : ErrMode
  deriving DecidableEq

/-- numpy's default error-reporting state (`divide='warn'`, `invalid='warn'`). -/
def np_default_errstate : ErrState := ⟨ErrMode.warn, ErrMode.warn⟩

/-- The names bound in the module's global namespace by its import
statements and its own definitions: `import numpy as np`,
`from ...util.univariate_Gaussian import std_norm_pdf, std_norm_cdf`,
`import link_functions`, `from likelihood import Likelihood`, and the
class statement `class Bernoulli(Likelihood)`. Note `stats` is absent. -/
def moduleBindings : List String :=
  ["np", "std_norm_pdf", "std_norm_cdf", "link_functions", "Likelihood", "Bernoulli"]

/-- Modelled from the spec: the standard normal PDF `φ` provided by the
(`src`-absent) utility module `util.univariate_Gaussian` as
`std_norm_pdf`; `φ(x) = exp(-x²/2)/√(2π)`. -/
noncomputable def std_norm_pdf (x : ℝ) : ℝ :=
  (Real.sqrt (2 * π))⁻¹ * Real.exp (-x ^ 2 / 2)

/-- Modelled from the spec: the standard normal CDF `Φ` provided by the
(`src`-absent) utility module `util.univariate_Gaussian` as
`std_norm_cdf`; `Φ(x) = ∫_{-∞}^{x} φ(t) dt`. -/
noncomputable def std_norm_cdf (x : ℝ) : ℝ :=
  ∫ t in Set.Iic x, std_norm_pdf t

/-- Embeds `Bernoulli._preprocess_values`: count the entries equal to 1 and
the entries equal to 0, assert the two counts add up to the total size,
then return a copy with every 0 rewritten to -1. -/
noncomputable def _preprocess_values (Y : NDArray) : Except PyError NDArray :=
  let Y1 := Y.data.countP (fun v => decide (v = 1))
  let Y2 := Y.data.countP (fun v => decide (v = 0))
  if Y1 + Y2 = Y.data.length then
    Except.ok ⟨Y.shape, Y.data.map (fun v => if v = 0 then -1 else v)⟩
  else
    Except.error PyError.assertionError

/-- The link-variant branch of `Bernoulli.moments_match_ep`, after the
observation has been mapped to `sign ∈ {+1, -1}`. -/
noncomputable def moments_body (link : Link) (sign tau_i v_i : ℝ) :
    Except PyError (ℝ × ℝ × ℝ) :=
  match link with
  | Link.Probit =>
    let z := sign * v_i / Real.sqrt (tau_i ^ 2 + tau_i)
    let Z_hat := std_norm_cdf z
    let phi := std_norm_pdf z
    let mu_hat := v_i / tau_i + sign * phi / (Z_hat * Real.sqrt (tau_i ^ 2 + tau_i))
    let sigma2_hat := 1 / tau_i - (phi / ((tau_i ^ 2 + tau_i) * Z_hat)) * (z + phi / Z_hat)
    Except.ok (Z_hat, mu_hat, sigma2_hat)
  | Link.Heaviside =>
    let a := sign * v_i / Real.sqrt tau_i
    let Z_hat := std_norm_cdf a
    let N := std_norm_pdf a
    let mu_hat := v_i / tau_i + sign * N / Z_hat / Real.sqrt tau_i
    let sigma2_hat := (1 - a * N / Z_hat - (N / Z_hat) ^ 2) / tau_i
    Except.ok (Z_hat, mu_hat, sigma2_hat)
  | Link.Other => Except.error (PyError.valueErrorNoMomentMatch Link.Other)

/-- Embeds `Bernoulli.moments_match_ep`: validate the observation
(`data_i == 1` → sign +1, `data_i == 0` → sign -1, otherwise
`ValueError`), then branch on the link variant. -/
noncomputable def moments_match_ep (link : Link) (data_i tau_i v_i : ℝ) :
    Except PyError (ℝ × ℝ × ℝ) :=
  if data_i = 1 then moments_body link 1 tau_i v_i
  else if data_i = 0 then moments_body link (-1) tau_i v_i
  else Except.error PyError.valueErrorBadObservation

/-- Embeds `Bernoulli.predictive_mean`. The source evaluates
`stats.norm.cdf(...)` in both supported branches; the name `stats` is
resolved against the module's global bindings, and since it is unbound a
`NameError` is raised before any value is produced. The value that the
expression was evidently meant to compute (the standard normal CDF) is kept
in the resolved branch. -/
noncomputable def predictive_mean (link : Link) (mu variance : ℝ) :
    Except PyError ℝ :=
  match link with
  | Link.Probit =>
    if ("stats" : String) ∈ moduleBindings then
      Except.ok (std_norm_cdf (mu / Real.sqrt (1 + variance)))
    else Except.error PyError.nameErrorStats
  | Link.Heaviside =>
    if ("stats" : String) ∈ moduleBindings then
      Except.ok (std_norm_cdf (mu / Real.sqrt variance))
    else Except.error PyError.nameErrorStats
  | Link.Other => Except.error PyError.notImplementedError

/-- The Python float type as returned by `predictive_variance`: either an
ordinary number or the not-a-number sentinel `np.nan`. -/
inductive PyFloat
  | num (x : ℝ)
  | nan

/-- Embeds `Bernoulli.predictive_variance`: `0.` for a Heaviside link,
`np.nan` for every other link; no argument is inspected. -/
def predictive_variance (link : Link) (mu variance pred_mean : ℝ) : PyFloat :=
  match link with
  | Link.Heaviside => PyFloat.num 0
  | _ => PyFloat.nan

/-- The elementwise selection `np.where(y, link_f, 1.-link_f)` in
`pdf_link`: numpy truthiness selects `link_f` wherever `y` is nonzero. -/
noncomputable def pdfSelect (yi lfi : ℝ) : ℝ :=
  if yi ≠ 0 then lfi else 1 - lfi

/-- Embeds `Bernoulli.pdf_link`: assert equal shapes, select
`np.where(y, link_f, 1.-link_f)`, and return
`np.exp(np.sum(np.log(objective)))` (a single aggregate scalar). -/
noncomputable def pdf_link (link_f y : NDArray) : Except PyError ℝ :=
  if link_f.shape = y.shape then
    Except.ok (Real.exp (((List.zipWith pdfSelect y.data link_f.data).map Real.log).sum))
  else
    Except.error PyError.assertionError

/-- The elementwise selection `np.where(y==1, np.log(link_f),
np.log(1-link_f))` in `logpdf_link`: exact equality with 1 selects the
first branch. -/
noncomputable def logpdfSelect (yi lfi : ℝ) : ℝ :=
  if yi = 1 then Real.log lfi else Real.log (1 - lfi)

/-- Embeds `Bernoulli.logpdf_link` together with its `np.seterr` effect:
assert equal shapes, save the error state and set `divide='ignore'`,
evaluate both `np.log` arrays (raising `FloatingPointError` if the
`invalid` category is set to raise and some log argument is negative, in
which case the saved state is NOT restored — the source has no
`try/finally`), else restore the saved state and return the summed
objective. -/
noncomputable def logpdf_link_fx (s : ErrState) (link_f y : NDArray) :
    Except PyError ℝ × ErrState :=
  if link_f.shape = y.shape then
    let saved := s
    let s1 : ErrState := { s with divide := ErrMode.ignore }
    if s1.invalid = ErrMode.raise ∧ ∃ x ∈ link_f.data, x < 0 ∨ 1 - x < 0 then
      (Except.error PyError.floatingPointError, s1)
    else
      (Except.ok ((List.zipWith logpdfSelect y.data link_f.data).sum), saved)
  else
    (Except.error PyError.assertionError, s)

/-- `Bernoulli.logpdf_link` called under numpy's default error state (the
returned value only). -/
noncomputable def logpdf_link (link_f y : NDArray) : Except PyError ℝ :=
  (logpdf_link_fx np_default_errstate link_f y).1

/-- The elementwise selection `np.where(y, 1./link_f, -1./(1-link_f))` in
`dlogpdf_dlink`. -/
noncomputable def dlogSelect (yi lfi : ℝ) : ℝ :=
  if yi ≠ 0 then 1 / lfi else -1 / (1 - lfi)

/-- Embeds `Bernoulli.dlogpdf_dlink` with its `np.seterr` effect: assert
equal shapes, suppress divide reporting, compute the elementwise gradient
(no operation in the suppressed region can raise: the only flaggable
condition is a zero divisor, whose `divide` category is ignored), restore
the saved state. -/
noncomputable def dlogpdf_dlink_fx (s : ErrState) (link_f y : NDArray) :
    Except PyError NDArray × ErrState :=
  if link_f.shape = y.shape then
    let saved := s
    (Except.ok ⟨link_f.shape, List.zipWith dlogSelect y.data link_f.data⟩, saved)
  else
    (Except.error PyError.assertionError, s)

/-- `Bernoulli.dlogpdf_dlink` called under numpy's default error state. -/
noncomputable def dlogpdf_dlink (link_f y : NDArray) : Except PyError NDArray :=
  (dlogpdf_dlink_fx np_default_errstate link_f y).1

/-- The elementwise selection `np.where(y, -1./np.square(link_f),
-1./np.square(1.-link_f))` in `d2logpdf_dlink2`. -/
noncomputable def d2Select (yi lfi : ℝ) : ℝ :=
  if yi ≠ 0 then -1 / lfi ^ 2 else -1 / (1 - lfi) ^ 2

/-- Embeds `Bernoulli.d2logpdf_dlink2` with its `np.seterr` effect
(structure as in `dlogpdf_dlink_fx`). -/
noncomputable def d2logpdf_dlink2_fx (s : ErrState) (link_f y : NDArray) :
    Except PyError NDArray × ErrState :=
  if link_f.shape = y.shape then
    let saved := s
    (Except.ok ⟨link_f.shape, List.zipWith d2Select y.data link_f.data⟩, saved)
  else
    (Except.error PyError.assertionError, s)

/-- `Bernoulli.d2logpdf_dlink2` called under numpy's default error state. -/
noncomputable def d2logpdf_dlink2 (link_f y : NDArray) : Except PyError NDArray :=
  (d2logpdf_dlink2_fx np_default_errstate link_f y).1

/-- The elementwise selection `np.where(y, 2./(link_f**3),
-2./((1.-link_f)**3))` in `d3logpdf_dlink3`. -/
noncomputable def d3Select (yi lfi : ℝ) : ℝ :=
  if yi ≠ 0 then 2 / lfi ^ 3 else -2 / (1 - lfi) ^ 3

/-- Embeds `Bernoulli.d3logpdf_dlink3` with its `np.seterr` effect
(structure as in `dlogpdf_dlink_fx`). -/
noncomputable def d3logpdf_dlink3_fx (s : ErrState) (link_f y : NDArray) :
    Except PyError NDArray × ErrState :=
  if link_f.shape = y.shape then
    let saved := s
    (Except.ok ⟨link_f.shape, List.zipWith d3Select y.data link_f.data⟩, saved)
  else
    (Except.error PyError.assertionError, s)

/-- `Bernoulli.d3logpdf_dlink3` called under numpy's default error state. -/
noncomputable def d3logpdf_dlink3 (link_f y : NDArray) : Except PyError NDArray :=
  (d3logpdf_dlink3_fx np_default_errstate link_f y).1

/-! ### Helper lemmas -/

/-- The counts of entries equal to 1 and entries equal to 0 together never
exceed the length (the two predicates are mutually exclusive). -/
lemma countP_zero_one_le (l : List ℝ) :
    l.countP (fun v => decide (v = 1)) + l.countP (fun v => decide (v = 0)) ≤ l.length := by
  induction l with
  | nil => simp
  | cons a l ih =>
    simp only [List.countP_cons, List.length_cons, decide_eq_true_eq]
    split_ifs with h1 h2 h3
    · exact absurd (h1.symm.trans h2) (by norm_num)
    · omega
    · omega
    · omega

/-- The assert condition of `_preprocess_values` holds exactly when every
entry is 0 or 1. -/
lemma countP_zero_one_eq_iff (l : List ℝ) :
    l.countP (fun v => decide (v = 1)) + l.countP (fun v => decide (v = 0)) = l.length ↔
      ∀ v ∈ l, v = 0 ∨ v = 1 := by
  induction l with
  | nil => simp
  | cons a l ih =>
    simp only [List.countP_cons, List.length_cons, decide_eq_true_eq, List.mem_cons]
    split_ifs with h1 h2 h3
    · exact absurd (h1.symm.trans h2) (by norm_num)
    · constructor
      · intro h v hv
        rcases hv with rfl | hv
        · exact Or.inr h1
        · exact (ih.mp (by omega)) v hv
      · intro h
        have h' := ih.mpr (fun v hv => h v (Or.inr hv))
        omega
    · constructor
      · intro h v hv
        rcases hv with rfl | hv
        · exact Or.inl h3
        · exact (ih.mp (by omega)) v hv
      · intro h
        have h' := ih.mpr (fun v hv => h v (Or.inr hv))
        omega
    · constructor
      · intro h
        have hle := countP_zero_one_le l
        omega
      · intro h
        rcases h a (Or.inl rfl) with h' | h'
        · exact absurd h' h3
        · exact absurd h' h1

/-- Elementwise negativity of the second-derivative selection on `(0,1)`. -/
lemma d2Select_neg {lfi : ℝ} (yi : ℝ) (h0 : 0 < lfi) (h1 : lfi < 1) :
    d2Select yi lfi < 0 := by
  unfold d2Select
  split_ifs
  · exact div_neg_of_neg_of_pos (by norm_num) (pow_pos h0 2)
  · exact div_neg_of_neg_of_pos (by norm_num) (pow_pos (sub_pos.mpr h1) 2)

/-- Every entry of the second-derivative array is negative when every entry
of `link_f` lies in `(0,1)`. -/
lemma zipWith_d2Select_neg :
    ∀ ys lfs : List ℝ, (∀ v ∈ lfs, 0 < v ∧ v < 1) →
      ∀ w ∈ List.zipWith d2Select ys lfs, w < 0 := by
  intro ys
  induction ys with
  | nil =>
    intro lfs _ w hw
    simp at hw
  | cons a ys ih =>
    intro lfs hlf w hw
    cases lfs with
    | nil => simp at hw
    | cons b lfs =>
      simp only [List.zipWith_cons_cons, List.mem_cons] at hw
      rcases hw with rfl | hw
      · exact d2Select_neg a (hlf b (by simp)).1 (hlf b (by simp)).2
      · exact ih lfs (fun v hv => hlf v (by simp [hv])) w hw

/-- When every label is 0 or 1, taking logs of the `pdf_link` selection
gives exactly the `logpdf_link` selection (truthiness agrees with equality
to 1 on `{0, 1}`). -/
lemma map_log_zipWith_pdfSelect :
    ∀ ys lfs : List ℝ, (∀ v ∈ ys, v = 0 ∨ v = 1) →
      (List.zipWith pdfSelect ys lfs).map Real.log = List.zipWith logpdfSelect ys lfs := by
  intro ys
  induction ys with
  | nil =>
    intro lfs _
    simp
  | cons a ys ih =>
    intro lfs h
    cases lfs with
    | nil => simp
    | cons b lfs =>
      simp only [List.zipWith_cons_cons, List.map_cons]
      rw [ih lfs (fun v hv => h v (List.mem_cons_of_mem _ hv))]
      congr 1
      rcases h a (List.mem_cons_self _ _) with rfl | rfl
      · unfold pdfSelect logpdfSelect
        rw [if_neg (by simp), if_neg (by norm_num)]
      · unfold pdfSelect logpdfSelect
        rw [if_pos (by norm_num), if_pos rfl]

/-- The standard normal PDF is an even function. -/
lemma std_norm_pdf_even (x : ℝ) : std_norm_pdf (-x) = std_norm_pdf x := by
  simp [std_norm_pdf, neg_sq]

/-- Value of the standard normal PDF at 0. -/
lemma std_norm_pdf_zero : std_norm_pdf 0 = (Real.sqrt (2 * π))⁻¹ := by
  simp [std_norm_pdf]

/-- The standard normal PDF written with the exponent in the
`-b·x²` shape of the Gaussian-integral lemmas. -/
lemma std_norm_pdf_exp_form :
    std_norm_pdf = fun x => (Real.sqrt (2 * π))⁻¹ * Real.exp (-(1 / 2) * x ^ 2) := by
  funext x
  unfold std_norm_pdf
  have h : -x ^ 2 / 2 = -(1 / 2) * x ^ 2 := by ring
  rw [h]

/-- The standard normal PDF is integrable. -/
lemma integrable_std_norm_pdf : Integrable std_norm_pdf := by
  rw [std_norm_pdf_exp_form]
  exact (integrable_exp_neg_mul_sq (by norm_num : (0 : ℝ) < 1 / 2)).const_mul _

/-- The standard normal PDF integrates to 1 over the real line. -/
lemma integral_std_norm_pdf : ∫ x, std_norm_pdf x = 1 := by
  have h : ∫ x : ℝ, Real.exp (-(1 / 2) * x ^ 2) = Real.sqrt (π / (1 / 2)) :=
    integral_gaussian (1 / 2)
  calc ∫ x, std_norm_pdf x
      = ∫ x, (Real.sqrt (2 * π))⁻¹ * Real.exp (-(1 / 2) * x ^ 2) := by
        rw [std_norm_pdf_exp_form]
    _ = (Real.sqrt (2 * π))⁻¹ * ∫ x, Real.exp (-(1 / 2) * x ^ 2) :=
        integral_mul_left _ _
    _ = (Real.sqrt (2 * π))⁻¹ * Real.sqrt (2 * π) := by
        rw [h, show π / (1 / 2) = 2 * π from by ring]
    _ = 1 := inv_mul_cancel₀ (ne_of_gt (Real.sqrt_pos.mpr (by positivity)))

/-- The standard normal CDF at 0 is one half (symmetry of the PDF plus
total mass 1). -/
lemma std_norm_cdf_zero : std_norm_cdf 0 = 1 / 2 := by
  have hint := integrable_std_norm_pdf
  have hsym : ∫ x in Set.Iic (0 : ℝ), std_norm_pdf x =
      ∫ x in Set.Ioi (0 : ℝ), std_norm_pdf x := by
    have h := integral_comp_neg_Iic (0 : ℝ) std_norm_pdf
    rw [neg_zero] at h
    simp_rw [std_norm_pdf_even] at h
    exact h
  have hsplit : (∫ x in Set.Iic (0 : ℝ), std_norm_pdf x) +
      ∫ x in Set.Ioi (0 : ℝ), std_norm_pdf x = 1 := by
    rw [← integral_std_norm_pdf, ← Set.compl_Iic]
    exact MeasureTheory.integral_add_compl measurableSet_Iic hint
  unfold std_norm_cdf
  linarith [hsym, hsplit]

/-- Closed-form evaluation of the Probit moment matching at observation 1,
`tau_i = 1`, `v_i = 0`: the cavity normalization is `Φ(0) = 1/2`, the
matched mean is `1/√π` and the matched variance is `1 - 1/π`. -/
lemma moments_probit_eval :
    moments_match_ep Link.Probit 1 1 0 =
      Except.ok (1 / 2, (Real.sqrt π)⁻¹, 1 - π⁻¹) := by
  have hz : (1 : ℝ) * 0 / Real.sqrt ((1 : ℝ) ^ 2 + 1) = 0 := by norm_num
  have hs2 : Real.sqrt 2 * Real.sqrt 2 = 2 := Real.mul_self_sqrt (by norm_num)
  have hne2 : Real.sqrt 2 ≠ 0 := ne_of_gt (Real.sqrt_pos.mpr (by norm_num))
  have hneπ : Real.sqrt π ≠ 0 := ne_of_gt (Real.sqrt_pos.mpr Real.pi_pos)
  have h2π : Real.sqrt (2 * π) = Real.sqrt 2 * Real.sqrt π := Real.sqrt_mul (by norm_num) π
  unfold moments_match_ep
  rw [if_pos rfl]
  simp only [moments_body, hz, std_norm_cdf_zero, std_norm_pdf_zero]
  have harg : ((1 : ℝ) ^ 2 + 1) = 2 := by norm_num
  rw [harg]
  refine congrArg Except.ok (Prod.ext ?_ (Prod.ext ?_ ?_))
  · rfl
  · show (0 : ℝ) / 1 + 1 * (Real.sqrt (2 * π))⁻¹ / (1 / 2 * Real.sqrt 2) = (Real.sqrt π)⁻¹
    rw [h2π]
    field_simp
    ring_nf
    rw [Real.sq_sqrt (by norm_num : (0 : ℝ) ≤ 2)]
  · show (1 : ℝ) / 1 - (Real.sqrt (2 * π))⁻¹ / (2 * (1 / 2)) *
        (0 + (Real.sqrt (2 * π))⁻¹ / (1 / 2)) = 1 - π⁻¹
    field_simp
    ring_nf
    rw [Real.sq_sqrt (by norm_num : (0 : ℝ) ≤ 2), Real.sq_sqrt (le_of_lt Real.pi_pos)]
    ring

/-- Evaluation of `logpdf_link_fx` on the non-raising path: the saved error
state is restored and the summed objective returned. -/
lemma logpdf_link_fx_ok (s : ErrState) (link_f y : NDArray)
    (hsh : link_f.shape = y.shape)
    (hsafe : ¬(s.invalid = ErrMode.raise ∧ ∃ x ∈ link_f.data, x < 0 ∨ 1 - x < 0)) :
    logpdf_link_fx s link_f y =
      (Except.ok ((List.zipWith logpdfSelect y.data link_f.data).sum), s) := by
  simp only [logpdf_link_fx]
  rw [if_pos hsh, if_neg hsafe]

/-- Evaluation of `logpdf_link_fx` on the raising path: a
`FloatingPointError` escapes with divide reporting still suppressed. -/
lemma logpdf_link_fx_raise (s : ErrState) (link_f y : NDArray)
    (hsh : link_f.shape = y.shape)
    (hinv : s.invalid = ErrMode.raise)
    (hneg : ∃ x ∈ link_f.data, x < 0 ∨ 1 - x < 0) :
    logpdf_link_fx s link_f y =
      (Except.error PyError.floatingPointError, ⟨ErrMode.ignore, s.invalid⟩) := by
  simp only [logpdf_link_fx]
  rw [if_pos hsh, if_pos ⟨hinv, hneg⟩]

/-! ### Claims -/

/-- C1: `predictive_mean` does not return a value in the two supported
cases: because the module never imports `scipy.stats`, the `stats.norm.cdf`
call raises `NameError` for both the Probit and the Heaviside link; for any
other link it raises `NotImplementedError`. This contradicts the claim that
the two supported cases return `Φ(mu/sqrt(1+variance))` resp.
`Φ(mu/sqrt(variance))` without error. -/
theorem c1_predictive_mean_raises_name_error :
    predictive_mean Link.Probit 0 3 = Except.error PyError.nameErrorStats ∧
    predictive_mean Link.Heaviside 0 4 = Except.error PyError.nameErrorStats ∧
    predictive_mean Link.Other 0 3 = Except.error PyError.notImplementedError := by
  refine ⟨?_, ?_, rfl⟩ <;> rfl

/-- C7: `predictive_variance` returns exactly 0 for the Heaviside link, the
NaN sentinel for every other link (Probit included), and its result is
independent of the three numeric arguments. -/
theorem c7_predictive_variance_spec (mu variance pred_mean mu' variance' pred_mean' : ℝ) :
    predictive_variance Link.Heaviside mu variance pred_mean = PyFloat.num 0 ∧
    predictive_variance Link.Probit mu variance pred_mean = PyFloat.nan ∧
    predictive_variance Link.Other mu variance pred_mean = PyFloat.nan ∧
    ∀ link : Link, predictive_variance link mu variance pred_mean =
      predictive_variance link mu' variance' pred_mean' := by
  refine ⟨rfl, rfl, rfl, fun link => ?_⟩
  cases link <;> rfl

/-- C8: when the shapes of `link_f` and `y` differ, each of the five
evaluation methods fails with its shape assert (`AssertionError`) and never
broadcasts. -/
theorem c8_shape_mismatch_errors (link_f y : NDArray) (h : link_f.shape ≠ y.shape) :
    pdf_link link_f y = Except.error PyError.assertionError ∧
    logpdf_link link_f y = Except.error PyError.assertionError ∧
    dlogpdf_dlink link_f y = Except.error PyError.assertionError ∧
    d2logpdf_dlink2 link_f y = Except.error PyError.assertionError ∧
    d3logpdf_dlink3 link_f y = Except.error PyError.assertionError := by
  unfold pdf_link logpdf_link logpdf_link_fx dlogpdf_dlink dlogpdf_dlink_fx
    d2logpdf_dlink2 d2logpdf_dlink2_fx d3logpdf_dlink3 d3logpdf_dlink3_fx
  rw [if_neg h, if_neg h, if_neg h, if_neg h, if_neg h]
  exact ⟨rfl, rfl, rfl, rfl, rfl⟩

/-- Witness for C8 at concrete mismatched shapes. -/
theorem c8_witness :
    (NDArray.mk [1] [0]).shape ≠ (NDArray.mk [2] [0, 0]).shape ∧
    pdf_link ⟨[1], [0]⟩ ⟨[2], [0, 0]⟩ = Except.error PyError.assertionError := by
  have h : (NDArray.mk [1] [(0 : ℝ)]).shape ≠ (NDArray.mk [2] [0, 0]).shape := by
    simp
  exact ⟨h, (c8_shape_mismatch_errors _ _ h).1⟩

/-- C4: `moments_match_ep` raises the invalid-observation `ValueError` for
every label other than exactly 0 or 1 (for every link variant), and for a
valid label raises the capability-not-supported `ValueError` when the link
variant is neither Probit nor Heaviside; in both cases it returns an error,
never a result. -/
theorem c4_moments_match_ep_errors (data_i tau_i v_i : ℝ) :
    (∀ link : Link, data_i ≠ 0 → data_i ≠ 1 →
      moments_match_ep link data_i tau_i v_i =
        Except.error PyError.valueErrorBadObservation) ∧
    ((data_i = 0 ∨ data_i = 1) →
      moments_match_ep Link.Other data_i tau_i v_i =
        Except.error (PyError.valueErrorNoMomentMatch Link.Other)) := by
  constructor
  · intro link h0 h1
    unfold moments_match_ep
    rw [if_neg h1, if_neg h0]
  · rintro (h | h) <;> subst h <;> unfold moments_match_ep
    · rw [if_neg (by norm_num : (0 : ℝ) ≠ 1), if_pos rfl]
      rfl
    · rw [if_pos rfl]
      rfl

/-- Witness for C4 at concrete inputs: label 2 with the Probit link, and
label 1 with an unsupported link. -/
theorem c4_witness :
    moments_match_ep Link.Probit 2 1 1 = Except.error PyError.valueErrorBadObservation ∧
    moments_match_ep Link.Other 1 1 1 =
      Except.error (PyError.valueErrorNoMomentMatch Link.Other) :=
  ⟨(c4_moments_match_ep_errors 2 1 1).1 Link.Probit (by norm_num) (by norm_num),
   (c4_moments_match_ep_errors 1 1 1).2 (Or.inr rfl)⟩

/-- C3 counterexample: on the invalid input array `[2]`,
`_preprocess_values` fails with `AssertionError` (a failed `assert`
statement), which is not a `ValueError`-class error as the claim states. -/
theorem c3_counterexample :
    _preprocess_values ⟨[1], [2]⟩ = Except.error PyError.assertionError ∧
    PyError.assertionError.isValueErrorClass = false := by
  constructor
  · unfold _preprocess_values
    rw [if_neg]
    simp only [List.countP_cons, List.countP_nil, List.length_cons, List.length_nil,
      decide_eq_true_eq]
    norm_num
  · rfl

/-- C3 (amended): `_preprocess_values` maps an all-{0,1} array to a new
array of the same shape with every 0 rewritten to -1 and every other entry
(hence every 1) unchanged, and fails with an `AssertionError` (not a
`ValueError`) when some entry is neither 0 nor 1, producing no partial
result. -/
theorem c3_preprocess_values_spec (Y : NDArray) :
    ((∀ v ∈ Y.data, v = 0 ∨ v = 1) →
      _preprocess_values Y =
        Except.ok ⟨Y.shape, Y.data.map (fun v => if v = 0 then -1 else v)⟩) ∧
    ((∃ v ∈ Y.data, v ≠ 0 ∧ v ≠ 1) →
      _preprocess_values Y = Except.error PyError.assertionError) := by
  constructor
  · intro h
    unfold _preprocess_values
    rw [if_pos ((countP_zero_one_eq_iff Y.data).mpr h)]
  · rintro ⟨v, hv, h0, h1⟩
    unfold _preprocess_values
    rw [if_neg]
    intro hc
    rcases (countP_zero_one_eq_iff Y.data).mp hc v hv with h | h
    · exact h0 h
    · exact h1 h

/-- Witness for C3 at the concrete inputs `[0, 1]` (valid, shape `[2]`)
and `[5]` (invalid). -/
theorem c3_witness :
    ((∀ v ∈ (NDArray.mk [2] [0, 1]).data, v = 0 ∨ v = 1) ∧
      _preprocess_values ⟨[2], [0, 1]⟩ = Except.ok ⟨[2], [-1, 1]⟩) ∧
    ((∃ v ∈ (NDArray.mk [1] [5]).data, v ≠ 0 ∧ v ≠ 1) ∧
      _preprocess_values ⟨[1], [5]⟩ = Except.error PyError.assertionError) := by
  have h : ∀ v ∈ (NDArray.mk [2] [(0 : ℝ), 1]).data, v = 0 ∨ v = 1 := by
    intro v hv
    simp only [List.mem_cons, List.not_mem_nil, or_false] at hv
    rcases hv with rfl | rfl
    · exact Or.inl rfl
    · exact Or.inr rfl
  have h5 : ∃ v ∈ (NDArray.mk [1] [(5 : ℝ)]).data, v ≠ 0 ∧ v ≠ 1 :=
    ⟨5, by simp, by norm_num, by norm_num⟩
  refine ⟨⟨h, ?_⟩, ⟨h5, (c3_preprocess_values_spec ⟨[1], [5]⟩).2 h5⟩⟩
  have he := (c3_preprocess_values_spec ⟨[2], [0, 1]⟩).1 h
  rw [he]
  norm_num

/-- C10: with every entry of `link_f` in the open interval `(0,1)` and `y`
of matching shape, every entry of `d2logpdf_dlink2` is strictly negative
(each entry is `-1/link_f²` or `-1/(1-link_f)²`). -/
theorem c10_d2logpdf_dlink2_negative (link_f y : NDArray)
    (hsh : link_f.shape = y.shape)
    (hlf : ∀ v ∈ link_f.data, 0 < v ∧ v < 1) :
    ∃ out : NDArray, d2logpdf_dlink2 link_f y = Except.ok out ∧
      ∀ w ∈ out.data, w < 0 := by
  refine ⟨⟨link_f.shape, List.zipWith d2Select y.data link_f.data⟩, ?_, ?_⟩
  · unfold d2logpdf_dlink2 d2logpdf_dlink2_fx
    rw [if_pos hsh]
  · exact zipWith_d2Select_neg y.data link_f.data hlf

/-- C2 counterexample: at the equally shaped arrays `link_f = [1/4]`,
`y = [2]`, `likelihood` returns `1/4` (the label 2 is truthy, selecting
`link_f`) while `exp(log_likelihood)` is `3/4` (2 is not equal to 1,
selecting `log(1-link_f)`), so the claimed identity fails without the
restriction of `y` to `{0, 1}`. -/
theorem c2_counterexample :
    (NDArray.mk [1] [1 / 4]).shape = (NDArray.mk [1] [2]).shape ∧
    pdf_link ⟨[1], [1 / 4]⟩ ⟨[1], [2]⟩ = Except.ok (1 / 4) ∧
    logpdf_link ⟨[1], [1 / 4]⟩ ⟨[1], [2]⟩ = Except.ok (Real.log (3 / 4)) ∧
    (1 / 4 : ℝ) ≠ Real.exp (Real.log (3 / 4)) := by
  refine ⟨rfl, ?_, ?_, ?_⟩
  · unfold pdf_link
    rw [if_pos rfl]
    simp only [List.zipWith_cons_cons, List.zipWith_nil_left, List.map_cons, List.map_nil,
      List.sum_cons, List.sum_nil, add_zero]
    unfold pdfSelect
    rw [if_pos (by norm_num : (2 : ℝ) ≠ 0), Real.exp_log (by norm_num : (0 : ℝ) < 1 / 4)]
  · unfold logpdf_link
    rw [logpdf_link_fx_ok np_default_errstate ⟨[1], [1 / 4]⟩ ⟨[1], [2]⟩ rfl
      (by rintro ⟨h, -⟩; exact ErrMode.noConfusion h)]
    simp only [List.zipWith_cons_cons, List.zipWith_nil_left, List.sum_cons, List.sum_nil,
      add_zero]
    unfold logpdfSelect
    rw [if_neg (by norm_num : ¬(2 : ℝ) = 1)]
    norm_num
  · rw [Real.exp_log (by norm_num : (0 : ℝ) < 3 / 4)]
    norm_num

/-- C2 (amended): for equally shaped `link_f` and `y` with every element of
`y` exactly 0 or 1, `likelihood(link_f, y) = exp(log_likelihood(link_f, y))`
as exact reals; without that restriction on `y` the identity fails (see the
counterexample). -/
theorem c2_likelihood_exp_log_likelihood (link_f y : NDArray)
    (hsh : link_f.shape = y.shape)
    (hy : ∀ v ∈ y.data, v = 0 ∨ v = 1) :
    ∃ a b : ℝ, pdf_link link_f y = Except.ok a ∧ logpdf_link link_f y = Except.ok b ∧
      a = Real.exp b := by
  refine ⟨Real.exp (((List.zipWith pdfSelect y.data link_f.data).map Real.log).sum),
    (List.zipWith logpdfSelect y.data link_f.data).sum, ?_, ?_, ?_⟩
  · unfold pdf_link
    rw [if_pos hsh]
  · unfold logpdf_link
    rw [logpdf_link_fx_ok np_default_errstate link_f y hsh
      (by rintro ⟨h, -⟩; exact ErrMode.noConfusion h)]
  · rw [map_log_zipWith_pdfSelect y.data link_f.data hy]

/-- Witness for C2 at the concrete input `link_f = [1/3]`, `y = [1]`. -/
theorem c2_witness :
    (NDArray.mk [1] [1 / 3]).shape = (NDArray.mk [1] [1]).shape ∧
    (∀ v ∈ (NDArray.mk [1] [(1 : ℝ)]).data, v = 0 ∨ v = 1) ∧
    ∃ a b : ℝ, pdf_link ⟨[1], [1 / 3]⟩ ⟨[1], [1]⟩ = Except.ok a ∧
      logpdf_link ⟨[1], [1 / 3]⟩ ⟨[1], [1]⟩ = Except.ok b ∧ a = Real.exp b := by
  have hy : ∀ v ∈ (NDArray.mk [1] [(1 : ℝ)]).data, v = 0 ∨ v = 1 := by
    intro v hv
    simp only [List.mem_cons, List.not_mem_nil, or_false] at hv
    exact Or.inr hv
  exact ⟨rfl, hy, c2_likelihood_exp_log_likelihood _ _ rfl hy⟩

/-- C9: `pdf_link` classifies any nonzero (truthy) label as 1 (selecting
`link_f`), while `logpdf_link` classifies only labels exactly equal to 1
as 1 (selecting `log(1-link_f)` for everything else); consequently at
`link_f = [1/5]`, `y = [2]` the aggregate likelihood `1/5` differs from the
exponential of the aggregate log-likelihood `4/5`. -/
theorem c9_truthiness_vs_eq_one :
    (∀ yi lfi : ℝ, yi ≠ 0 → pdfSelect yi lfi = lfi) ∧
    (∀ yi lfi : ℝ, yi ≠ 1 → logpdfSelect yi lfi = Real.log (1 - lfi)) ∧
    pdf_link ⟨[1], [1 / 5]⟩ ⟨[1], [2]⟩ = Except.ok (1 / 5) ∧
    logpdf_link ⟨[1], [1 / 5]⟩ ⟨[1], [2]⟩ = Except.ok (Real.log (4 / 5)) ∧
    (1 / 5 : ℝ) ≠ Real.exp (Real.log (4 / 5)) := by
  refine ⟨fun yi lfi h => if_pos h, fun yi lfi h => if_neg h, ?_, ?_, ?_⟩
  · unfold pdf_link
    rw [if_pos rfl]
    simp only [List.zipWith_cons_cons, List.zipWith_nil_left, List.map_cons, List.map_nil,
      List.sum_cons, List.sum_nil, add_zero]
    unfold pdfSelect
    rw [if_pos (by norm_num : (2 : ℝ) ≠ 0), Real.exp_log (by norm_num : (0 : ℝ) < 1 / 5)]
  · unfold logpdf_link
    rw [logpdf_link_fx_ok np_default_errstate ⟨[1], [1 / 5]⟩ ⟨[1], [2]⟩ rfl
      (by rintro ⟨h, -⟩; exact ErrMode.noConfusion h)]
    simp only [List.zipWith_cons_cons, List.zipWith_nil_left, List.sum_cons, List.sum_nil,
      add_zero]
    unfold logpdfSelect
    rw [if_neg (by norm_num : ¬(2 : ℝ) = 1)]
    norm_num
  · rw [Real.exp_log (by norm_num : (0 : ℝ) < 4 / 5)]
    norm_num

/-- Witness for C9's universally quantified parts at the concrete label 2. -/
theorem c9_witness :
    pdfSelect 2 (1 / 5) = 1 / 5 ∧ logpdfSelect 2 (1 / 5) = Real.log (1 - 1 / 5) :=
  ⟨c9_truthiness_vs_eq_one.1 2 (1 / 5) (by norm_num),
   c9_truthiness_vs_eq_one.2.1 2 (1 / 5) (by norm_num)⟩

/-- C6 counterexample: with the Probit link,
`moments_match_ep(1, tau_i=1.0, v_i=0.0)` returns `mu_hat = 1/√π`, which is
nonzero — the claim's `mu_hat = 0` is wrong. -/
theorem c6_counterexample :
    moments_match_ep Link.Probit 1 1 0 =
      Except.ok (1 / 2, (Real.sqrt π)⁻¹, 1 - π⁻¹) ∧
    ((Real.sqrt π)⁻¹ : ℝ) ≠ 0 :=
  ⟨moments_probit_eval, inv_ne_zero (ne_of_gt (Real.sqrt_pos.mpr Real.pi_pos))⟩

/-- C6 (amended): with the Probit link, `moments_match_ep(1, 1.0, 0.0)`
returns `Z_hat = 0.5`, `mu_hat = 1/√π` (a specific strictly positive value,
not 0), and `sigma2_hat = 1 - 1/π`, a specific strictly positive value
determined by the closed form. -/
theorem c6_moments_probit :
    moments_match_ep Link.Probit 1 1 0 =
      Except.ok (1 / 2, (Real.sqrt π)⁻¹, 1 - π⁻¹) ∧
    (0 : ℝ) < (Real.sqrt π)⁻¹ ∧ (0 : ℝ) < 1 - π⁻¹ := by
  refine ⟨moments_probit_eval, inv_pos.mpr (Real.sqrt_pos.mpr Real.pi_pos), ?_⟩
  have h : π⁻¹ < 1 := inv_lt_one_of_one_lt₀ (by linarith [Real.pi_gt_three])
  linarith

/-- C5 counterexample: with ambient error state `divide='warn',
invalid='raise'` and `link_f = [-1]` (so `np.log` sees a negative argument
and raises `FloatingPointError` mid-computation), `logpdf_link` exits with
divide reporting still set to `ignore`: the observed post-call state
differs from the pre-call state, because the restore is not on the error
path (no `try/finally`). -/
theorem c5_counterexample :
    (logpdf_link_fx ⟨ErrMode.warn, ErrMode.raise⟩ ⟨[1], [-1]⟩ ⟨[1], [1]⟩).2 ≠
      (⟨ErrMode.warn, ErrMode.raise⟩ : ErrState) := by
  rw [logpdf_link_fx_raise ⟨ErrMode.warn, ErrMode.raise⟩ ⟨[1], [-1]⟩ ⟨[1], [1]⟩ rfl rfl
    ⟨-1, by simp, Or.inl (by norm_num)⟩]
  decide

/-- C5 (amended): each of the four divide-suppressing methods restores the
prior numeric-error reporting state on every call that does not raise a
floating-point error mid-computation; `dlogpdf_dlink`, `d2logpdf_dlink2`
and `d3logpdf_dlink3` always restore it, but `logpdf_link` leaks the
suppressed divide state when a `FloatingPointError` escapes (possible only
when `invalid` reporting is set to raise and a log argument is negative). -/
theorem c5_seterr_restore (s : ErrState) (link_f y : NDArray) :
    ((logpdf_link_fx s link_f y).1 ≠ Except.error PyError.floatingPointError →
      (logpdf_link_fx s link_f y).2 = s) ∧
    (dlogpdf_dlink_fx s link_f y).2 = s ∧
    (d2logpdf_dlink2_fx s link_f y).2 = s ∧
    (d3logpdf_dlink3_fx s link_f y).2 = s := by
  refine ⟨?_, ?_, ?_, ?_⟩
  · intro h
    by_cases hsh : link_f.shape = y.shape
    · by_cases hsafe : s.invalid = ErrMode.raise ∧ ∃ x ∈ link_f.data, x < 0 ∨ 1 - x < 0
      · rw [logpdf_link_fx_raise _ _ _ hsh hsafe.1 hsafe.2] at h
        exact absurd rfl h
      · rw [logpdf_link_fx_ok _ _ _ hsh hsafe]
    · simp only [logpdf_link_fx]
      rw [if_neg hsh]
  · simp only [dlogpdf_dlink_fx]
    split_ifs <;> rfl
  · simp only [d2logpdf_dlink2_fx]
    split_ifs <;> rfl
  · simp only [d3logpdf_dlink3_fx]
    split_ifs <;> rfl

/-- Witness for C5 at a concrete non-raising call. -/
theorem c5_witness :
    (logpdf_link_fx np_default_errstate ⟨[1], [1 / 2]⟩ ⟨[1], [1]⟩).1 ≠
      Except.error PyError.floatingPointError ∧
    (logpdf_link_fx np_default_errstate ⟨[1], [1 / 2]⟩ ⟨[1], [1]⟩).2 =
      np_default_errstate := by
  have h : (logpdf_link_fx np_default_errstate ⟨[1], [1 / 2]⟩ ⟨[1], [1]⟩).1 ≠
      Except.error PyError.floatingPointError := by
    rw [logpdf_link_fx_ok np_default_errstate ⟨[1], [1 / 2]⟩ ⟨[1], [1]⟩ rfl
      (by rintro ⟨h, -⟩; exact ErrMode.noConfusion h)]
    simp
  exact ⟨h, (c5_seterr_restore np_default_errstate ⟨[1], [1 / 2]⟩ ⟨[1], [1]⟩).1 h⟩

/-- Witness for C10 at the concrete input `link_f = [1/2, 1/4]`,
`y = [1, 0]`. -/
theorem c10_witness :
    (NDArray.mk [2] [1 / 2, 1 / 4]).shape = (NDArray.mk [2] [1, 0]).shape ∧
    (∀ v ∈ (NDArray.mk [2] [1 / 2, 1 / 4]).data, 0 < v ∧ v < 1) ∧
    ∃ out : NDArray,
      d2logpdf_dlink2 ⟨[2], [1 / 2, 1 / 4]⟩ ⟨[2], [1, 0]⟩ = Except.ok out ∧
      ∀ w ∈ out.data, w < 0 := by
  refine ⟨rfl, ?_, ?_⟩
  · intro v hv
    simp only [List.mem_cons, List.not_mem_nil, or_false] at hv
    rcases hv with rfl | rfl <;> norm_num
  · refine c10_d2logpdf_dlink2_negative _ _ rfl ?_
    intro v hv
    simp only [List.mem_cons, List.not_mem_nil, or_false] at hv
    rcases hv with rfl | rfl <;> norm_num

end GPyBernoulli
